import Mathlib

set_option autoImplicit false
set_option linter.unusedVariables false

/-!  Shallow embedding of `src/bart/api.py` (class `BartApi`), a Python 2
client for the BART HTTP/XML API.  Pure request construction, parameter
validation and response unwrapping are translated directly; the HTTP
transport and the XML decoder are abstracted as an oracle (`Env.fetch`)
that yields a status code and the already-decoded document.  Python
exceptions are modelled by `Except PyError`; each public operation also
records the list of HTTP requests it issued and the values it printed. -/

/-- Python exception outcomes that the embedded code can produce. -/
inductive PyError where
  | exc (msg : String)
  | keyError (k : String)
  | indexError
  | attributeError
  | typeError (msg : String)
  | httpError (status : Nat)
deriving DecidableEq

/-- Python scalar values, as far as the validators distinguish them
(`check_legend` compares its argument against the int literals 0 and 1,
so an int/str sum suffices). -/
inductive PyVal where
  | int (n : Int)
  | str (s : String)
deriving DecidableEq

/-- Rendering used by Python format strings for the modelled scalars. -/
def pyvalStr : PyVal → String
  | .int n => toString n
  | .str s => s

/-- Modelled from the spec: the static station table lives in a `constants`
module that is not part of src/.  The spec (section 3) describes it as a fixed
known-set of 4-character codes; the station validator must accept
case-insensitive variants (membership is tested on the lowercased input,
spec section 4.3) while the train-identifier validator tests the raw
4-character prefix and must accept "ASHB" and reject "XXXX" (spec section 8),
so the modelled key set carries each known code in both canonical cases. -/
def stations_keys : List String :=
  ["12th", "16th", "19th", "24th", "ashb", "mcar", "colm", "daly", "embr",
   "frmt", "ASHB", "MCAR", "COLM", "DALY", "EMBR", "FRMT"]

/-- Modelled from the spec: the static route table from the missing
`constants` module; the spec (sections 3 and 4.3) gives the known set as the
route numbers 1..12 plus the sentinels handled separately by the validator. -/
def routes : List String :=
  ["1", "2", "3", "4", "5", "6", "7", "8", "9", "10", "11", "12"]

/-- Prefix test on character lists. -/
def listPrefix : List Char → List Char → Bool
  | [], _ => true
  | _ :: _, [] => false
  | a :: as, b :: bs => a == b && listPrefix as bs

/-- Contiguous-substring test on character lists. -/
def listInfix : List Char → List Char → Bool
  | n, [] => n.isEmpty
  | n, h :: t => listPrefix n (h :: t) || listInfix n t

/-- Python 2 substring membership: `needle in haystack` on str is a
contiguous-substring test. -/
def pyInStr (needle haystack : String) : Bool :=
  listInfix needle.data haystack.data

/-- Python str.lower(), which on the ASCII strings involved lowercases each
character. -/
def strLower (s : String) : String := ⟨s.data.map Char.toLower⟩

/-- Whitespace stripped by Python str.strip() and by int(). -/
def isPyWs (c : Char) : Bool :=
  c == ' ' || c == '\t' || c == '\n' || c == '\x0b' || c == '\x0c' || c == '\r'

/-- Python str.strip() on the character list. -/
def stripWs (l : List Char) : List Char :=
  ((l.dropWhile isPyWs).reverse.dropWhile isPyWs).reverse

/-- ASCII digit, the regex class \d of Python 2 str patterns (code points
48..57). -/
def isDig (c : Char) : Bool :=
  decide (48 ≤ c.toNat) && decide (c.toNat ≤ 57)

/-- Numeric value of a digit character. -/
def digVal (c : Char) : Nat := c.toNat - 48

/-- Value of a digit string read left to right. -/
def chunkVal (l : List Char) : Nat :=
  l.foldl (fun n c => n * 10 + digVal c) 0

/-- Two-digit hour of the strptime directive %H, regex 2[0-3]|[0-1]\d. -/
def isHour2 (c1 c2 : Char) : Bool :=
  (decide (c1.toNat = 50) && decide (48 ≤ c2.toNat) && decide (c2.toNat ≤ 51)) ||
  (decide (48 ≤ c1.toNat) && decide (c1.toNat ≤ 49) && isDig c2)

/-- Leading minute digit of the strptime directive %M, regex [0-5]\d. -/
def isMin2 (c1 c2 : Char) : Bool :=
  decide (48 ≤ c1.toNat) && decide (c1.toNat ≤ 53) && isDig c2

/-- Meridian marker of the strptime directive %p: am or pm, matched
case-insensitively. -/
def isAmPm (a p : Char) : Bool :=
  (a.toLower == 'a' || a.toLower == 'p') && p.toLower == 'm'

/-- Full match of the anchored pattern that Python 2 strptime compiles for
the format "%H:%M+%p": (2[0-3]|[0-1]\d|\d) then a colon, ([0-5]\d|\d) then a
plus sign, then (am|pm) ignoring case, with no unconverted input left over.
The four list shapes enumerate the possible hour/minute digit widths. -/
def hmpMatch : List Char → Bool
  | [h, c1, m, c2, a, p] =>
      c1 == ':' && c2 == '+' && isDig h && isDig m && isAmPm a p
  | [x1, x2, x3, x4, x5, x6, x7] =>
      (x3 == ':' && x5 == '+' && isHour2 x1 x2 && isDig x4 && isAmPm x6 x7) ||
      (x2 == ':' && x5 == '+' && isDig x1 && isMin2 x3 x4 && isAmPm x6 x7)
  | [h1, h2, c1, m1, m2, c2, a, p] =>
      c1 == ':' && c2 == '+' && isHour2 h1 h2 && isMin2 m1 m2 && isAmPm a p
  | _ => false

/-- Success of datetime.datetime.strptime(time, "%H:%M+%p"), which with the
%H hour directive succeeds exactly when the compiled regex consumes the whole
string (the parsed %p value is ignored when %I is absent, and the resulting
1900-01-01 timestamp always constructs). -/
def strptime_HMp (s : String) : Bool := hmpMatch s.data

/-- Single-digit month/day regex alternative [1-9]. -/
def isNonzeroDig (c : Char) : Bool :=
  decide (49 ≤ c.toNat) && decide (c.toNat ≤ 57)

/-- Two-digit month of the strptime directive %m, regex 1[0-2]|0[1-9]. -/
def isMonth2 (c1 c2 : Char) : Bool :=
  (decide (c1.toNat = 49) && decide (48 ≤ c2.toNat) && decide (c2.toNat ≤ 50)) ||
  (decide (c1.toNat = 48) && isNonzeroDig c2)

/-- Two-digit day of the strptime directive %d, regex 3[01]|[12]\d|0[1-9]. -/
def isDay2 (c1 c2 : Char) : Bool :=
  (decide (c1.toNat = 51) && (decide (c2.toNat = 48) || decide (c2.toNat = 49))) ||
  ((decide (c1.toNat = 49) || decide (c1.toNat = 50)) && isDig c2) ||
  (decide (c1.toNat = 48) && isNonzeroDig c2)

/-- Gregorian leap-year rule used by datetime. -/
def isLeap (y : Nat) : Bool :=
  (decide (y % 4 = 0) && decide (y % 100 ≠ 0)) || decide (y % 400 = 0)

/-- Length of a month as validated by the datetime constructor. -/
def daysInMonth (m y : Nat) : Nat :=
  if m = 2 then (if isLeap y then 29 else 28)
  else if m = 4 ∨ m = 6 ∨ m = 9 ∨ m = 11 then 30
  else 31

/-- Four-digit year value. -/
def yearVal (y1 y2 y3 y4 : Char) : Nat :=
  ((digVal y1 * 10 + digVal y2) * 10 + digVal y3) * 10 + digVal y4

/-- Constructor-stage checks of datetime.datetime(year, month, day): the year
must be at least MINYEAR = 1 and the day must fit the month (the regex
already bounds month to 1..12 and day to 1..31). -/
def dateCtorOk (mv dv yv : Nat) : Bool :=
  decide (1 ≤ yv) && decide (dv ≤ daysInMonth mv yv)

/-- Success of datetime.datetime.strptime(date, "%m/%d/%Y"): full regex match
(month 1[0-2]|0[1-9]|[1-9], day 3[01]|[12]\d|0[1-9]|[1-9], four digit year)
followed by the datetime constructor accepting the calendar values. -/
def mdyMatch : List Char → Bool
  | [m, s1, d, s2, y1, y2, y3, y4] =>
      s1 == '/' && s2 == '/' && isNonzeroDig m && isNonzeroDig d &&
      isDig y1 && isDig y2 && isDig y3 && isDig y4 &&
      dateCtorOk (digVal m) (digVal d) (yearVal y1 y2 y3 y4)
  | [a1, a2, a3, a4, a5, a6, a7, a8, a9] =>
      (a3 == '/' && a5 == '/' && isMonth2 a1 a2 && isNonzeroDig a4 &&
       isDig a6 && isDig a7 && isDig a8 && isDig a9 &&
       dateCtorOk (digVal a1 * 10 + digVal a2) (digVal a4) (yearVal a6 a7 a8 a9)) ||
      (a2 == '/' && a5 == '/' && isNonzeroDig a1 && isDay2 a3 a4 &&
       isDig a6 && isDig a7 && isDig a8 && isDig a9 &&
       dateCtorOk (digVal a1) (digVal a3 * 10 + digVal a4) (yearVal a6 a7 a8 a9))
  | [b1, b2, b3, b4, b5, b6, b7, b8, b9, b10] =>
      b3 == '/' && b6 == '/' && isMonth2 b1 b2 && isDay2 b4 b5 &&
      isDig b7 && isDig b8 && isDig b9 && isDig b10 &&
      dateCtorOk (digVal b1 * 10 + digVal b2) (digVal b4 * 10 + digVal b5)
        (yearVal b7 b8 b9 b10)
  | _ => false

/-- Success of int(s) in Python 2: optional surrounding whitespace, an
optional sign, then one or more digits. -/
def pyIntOk (s : String) : Bool :=
  match stripWs s.data with
  | [] => false
  | c :: rest =>
      if c == '+' || c == '-' then !rest.isEmpty && rest.all isDig
      else (c :: rest).all isDig

/-- Python slice s[:n] on a str (byte slicing; the embedded strings are
ASCII, so code points coincide). -/
def strTake (s : String) (n : Nat) : String := ⟨s.data.take n⟩

/-- Python slice s[n:] on a str. -/
def strDrop (s : String) (n : Nat) : String := ⟨s.data.drop n⟩

/-- BartApi.check_station: the lowercased input must be a station key or the
sentinel "all". -/
def check_station (orig : String) : Except PyError Unit :=
  if strLower orig ∈ stations_keys ++ ["all"] then .ok ()
  else .error (.exc ("Station \x27" ++ orig ++ "\x27 not recognized"))

/-- BartApi.check_platform: membership in range(1, 5). -/
def check_platform (platform : Int) : Except PyError Unit :=
  if 1 ≤ platform ∧ platform ≤ 4 then .ok ()
  else .error (.exc ("Platform \x27" ++ toString platform ++ "\x27 not recognized"))

/-- BartApi.check_direction: the Python test is substring membership
`direction not in "ns"`. -/
def check_direction (dir : String) : Except PyError Unit :=
  if pyInStr dir "ns" then .ok ()
  else .error (.exc ("Direction \x27" ++ dir ++ "\x27 not recognized"))

/-- BartApi.check_route: membership in the route table or the sentinels. -/
def check_route (route : String) : Except PyError Unit :=
  if route ∈ routes ++ ["all", "ALL"] then .ok ()
  else .error (.exc ("Route \x27" ++ route ++ "\x27 not recognized"))

/-- BartApi.check_time: the literals, or strptime with format "%H:%M+%p". -/
def check_time (time : String) : Except PyError Unit :=
  if time ∈ ["today", "now"] then .ok ()
  else if strptime_HMp time then .ok ()
  else .error (.exc ("Time \x27" ++ time ++ "\x27 not recognized"))

/-- BartApi.check_date: the literals, or strptime with format "%m/%d/%Y". -/
def check_date (date : String) : Except PyError Unit :=
  if date ∈ ["today", "now"] then .ok ()
  else if mdyMatch date.data then .ok ()
  else .error (.exc ("Date \x27" ++ date ++ "\x27 not recognized"))

/-- BartApi.check_trips: membership in range(0, 5). -/
def check_trips (num_trips : Int) : Except PyError Unit :=
  if 0 ≤ num_trips ∧ num_trips ≤ 4 then .ok ()
  else .error (.exc ("Number of given trips, " ++ toString num_trips ++ ", not valid"))

/-- BartApi.check_legend: membership in the Python list [0, 1]; a str never
compares equal to an int in Python 2, so only the int values pass. -/
def check_legend (legend : PyVal) : Except PyError Unit :=
  if legend = .int 0 ∨ legend = .int 1 then .ok ()
  else .error (.exc ("Legend value \x27" ++ pyvalStr legend ++ "\x27 invalid"))

/-- BartApi.check_load: first 4 characters are the station, the next 2 the
route, the remainder the train id; the station must be a table key and the
other two parts must parse as ints, each failure raising with the offending
sub-part. -/
def check_load (train : String) : Except PyError Unit :=
  let station := strTake train 4
  let route := strTake (strDrop train 4) 2
  let train_id := strDrop train 6
  if station ∈ stations_keys then
    if pyIntOk route then
      if pyIntOk train_id then .ok ()
      else .error (.exc ("Train ID \x27" ++ train_id ++ "\x27 not recognized"))
    else .error (.exc ("Route \x27" ++ route ++ "\x27 not recognized"))
  else .error (.exc ("Station \x27" ++ station ++ "\x27 not recognized"))

/-- BartApi.check_schedule_type: lowercased substring membership in "wsh". -/
def check_schedule_type (st : String) : Except PyError Unit :=
  if pyInStr (strLower st) "wsh" then .ok ()
  else .error (.exc ("Station type \x27" ++ st ++ "\x27 not recognized"))

/-- Scalar query-parameter values placed into a request payload. -/
inductive Param where
  | str (s : String)
  | int (n : Int)
deriving DecidableEq

/-- Decoded XML documents as produced by xmltodict: None for an empty
element, a text node, or a mapping of child elements. -/
inductive Value where
  | vnone
  | vstr (s : String)
  | vdict (entries : List (String × Value))

/-- First-match association-list lookup, the Python dict access pattern. -/
def lookupKey {β : Type} : List (String × β) → String → Option β
  | [], _ => none
  | (k2, v) :: rest, k => if k2 = k then some v else lookupKey rest k

/-- Effect of dict.pop(k) on the entries (the source pops a key that the
wrapper guarantees unique, so dropping every binding of k is the same as
dropping the first). -/
def removeKey {β : Type} (d : List (String × β)) (k : String) : List (String × β) :=
  d.filter (fun p => p.1 ≠ k)

/-- Python truthiness of a decoded value: None and empty strings/dicts are
falsy. -/
def truthy : Value → Bool
  | .vnone => false
  | .vstr s => !(s = "")
  | .vdict d => !d.isEmpty

/-- Truthiness of an optional int argument (None and 0 are falsy). -/
def truthyOptInt : Option Int → Bool
  | none => false
  | some n => !(n = 0)

/-- Truthiness of an optional str argument (None and "" are falsy). -/
def truthyOptStr : Option String → Bool
  | none => false
  | some s => !(s = "")

/-- An HTTP GET issued by call_api: resolved URL plus query parameters. -/
structure Request where
  uri : String
  params : List (String × Param)

/-- What the abstracted transport and XML decoder hand back for a request:
the HTTP status code and the decoded document (decode failures are out of
scope of the claims, so the oracle always yields a document). -/
structure FetchResult where
  status : Nat
  doc : Value

/-- The immutable client state: the API key from the constructor and the
transport oracle. -/
structure Env where
  api_key : String
  fetch : Request → FetchResult

/-- Outcome of running an operation: the HTTP requests it issued in order,
the values it printed, and its return value or exception. -/
structure CallResult (α : Type) where
  requests : List Request
  printed : List Value
  result : Except PyError α

/-- BartApi.BART_URI. -/
def BART_URI : String := "http://api.bart.gov/api/"

/-- BartApi.BART_ENDPOINTS. -/
def BART_ENDPOINTS : List String := ["bsa", "etd", "route", "sched", "stn"]

/-- Request built by call_api: urljoin of the base with endpoint.aspx, and
the payload dict of cmd, key and the keyword arguments. -/
def mkRequest (api_key endpoint cmd : String) (kwargs : List (String × Param)) : Request :=
  ⟨BART_URI ++ endpoint ++ ".aspx", ("cmd", .str cmd) :: ("key", .str api_key) :: kwargs⟩

/-- requests.Response.raise_for_status raises exactly for 4xx and 5xx
status codes. -/
def raise_for_status_raises (status : Nat) : Bool :=
  decide (400 ≤ status) && decide (status < 600)

/-- Response-processing tail of call_api: index the decoded document at
root, pop the uri wrapper key, look at the message field (a missing key is a
KeyError, a get call on a truthy non-dict an AttributeError), print a truthy
error note, and return the remaining mapping. -/
def parse_and_unwrap (doc : Value) : List Value × Except PyError Value :=
  match doc with
  | .vdict top =>
      match lookupKey top "root" with
      | none => ([], .error (.keyError "root"))
      | some root =>
          match root with
          | .vdict d =>
              match lookupKey d "uri" with
              | none => ([], .error (.keyError "uri"))
              | some _ =>
                  let d2 := removeKey d "uri"
                  match lookupKey d2 "message" with
                  | none => ([], .error (.keyError "message"))
                  | some m =>
                      if truthy m then
                        match m with
                        | .vdict md =>
                            match lookupKey md "error" with
                            | some e =>
                                if truthy e then ([e], .ok (.vdict d2))
                                else ([], .ok (.vdict d2))
                            | none => ([], .ok (.vdict d2))
                        | _ => ([], .error .attributeError)
                      else ([], .ok (.vdict d2))
          | _ => ([], .error .attributeError)
  | _ => ([], .error (.typeError "string indices must be integers"))

/-- BartApi.call_api: build the payload, resolve the endpoint (raising on an
unknown one before any I/O), issue the GET, raise for 4xx/5xx statuses, then
decode and unwrap the response. -/
def call_api (env : Env) (endpoint cmd : String) (kwargs : List (String × Param)) :
    CallResult Value :=
  if endpoint ∈ BART_ENDPOINTS then
    let req := mkRequest env.api_key endpoint cmd kwargs
    let resp := env.fetch req
    if resp.status ≠ 200 ∧ raise_for_status_raises resp.status then
      ⟨[req], [], .error (.httpError resp.status)⟩
    else
      let pr := parse_and_unwrap resp.doc
      ⟨[req], pr.1, pr.2⟩
  else ⟨[], [], .error (.exc ("Endpoint \x27" ++ endpoint ++ "\x27 does not exist"))⟩

/-- Sequencing of a validator in front of a computation: a raised exception
propagates before anything later runs (in particular before any request). -/
def seqCheck {α : Type} (c : Except PyError Unit) (rest : CallResult α) : CallResult α :=
  match c with
  | .ok _ => rest
  | .error e => ⟨[], [], .error e⟩

/-- Post-processing of a call result by a pure Python expression that may
itself raise. -/
def bindR {α β : Type} (r : CallResult α) (f : α → Except PyError β) : CallResult β :=
  ⟨r.requests, r.printed, r.result.bind f⟩

/-- Post-processing of a call result by a total reshaping. -/
def mapR {α β : Type} (r : CallResult α) (f : α → β) : CallResult β :=
  ⟨r.requests, r.printed, r.result.map f⟩

/-- Python subscript v[k]: a KeyError on a missing dict key, a TypeError on
a non-dict. -/
def indexKey (v : Value) (k : String) : Except PyError Value :=
  match v with
  | .vdict d =>
      match lookupKey d k with
      | some x => .ok x
      | none => .error (.keyError k)
  | _ => .error (.typeError "value is not subscriptable")

/-- BartApi.get_api_commands: re-checks the endpoint itself, calls help,
then splits the help text. -/
def get_api_commands (env : Env) (endpoint : String) : CallResult (List String) :=
  if endpoint ∈ BART_ENDPOINTS then
    bindR (call_api env endpoint "help" []) (fun out => do
      let m ← indexKey out "message"
      let h ← indexKey m "help"
      match h with
      | .vstr s =>
          match (s.splitOn ": ").get? 1 with
          | some tail => .ok (tail.splitOn ", ")
          | none => .error .indexError
      | _ => .error .attributeError)
  else ⟨[], [], .error (.exc ("Endpoint \x27" ++ endpoint ++ "\x27 does not exist"))⟩

/-- BartApi.get_api_version. -/
def get_api_version (env : Env) (endpoint : String) : CallResult Value :=
  call_api env endpoint "ver" []

/-- BartApi.get_current_advisory. -/
def get_current_advisory (env : Env) (orig : String) : CallResult Value :=
  seqCheck (check_station orig)
    (bindR (call_api env "bsa" "bsa" [("orig", .str orig)])
      (fun out => indexKey out "bsa"))

/-- BartApi.get_number_of_trains. -/
def get_number_of_trains (env : Env) : CallResult Value :=
  bindR (call_api env "bsa" "count" []) (fun out => indexKey out "traincount")

/-- BartApi.get_elevator_status. -/
def get_elevator_status (env : Env) : CallResult Value :=
  bindR (call_api env "bsa" "elev" []) (fun out => indexKey out "bsa")

/-- BartApi.get_estimated_departure: validate the station; for the sentinel
station call with orig only; otherwise a truthy plat is validated and wins,
else a truthy dir is validated and used, else the function falls through and
returns None without any request. -/
def get_estimated_departure (env : Env) (orig : String) (plat : Option Int)
    (dir : Option String) : CallResult (Option Value) :=
  seqCheck (check_station orig)
    (if orig = "all" then
      mapR (call_api env "etd" "etd" [("orig", .str orig)]) some
    else if truthyOptInt plat then
      seqCheck (check_platform (plat.getD 0))
        (mapR (call_api env "etd" "etd"
          [("orig", .str orig), ("plat", .int (plat.getD 0))]) some)
    else if truthyOptStr dir then
      seqCheck (check_direction (dir.getD ""))
        (mapR (call_api env "etd" "etd"
          [("orig", .str orig), ("dir", .str (dir.getD ""))]) some)
    else ⟨[], [], .ok none⟩)

/-- BartApi.get_route_information. -/
def get_route_information (env : Env) (route : String) (sched : Option Int)
    (date : String) : CallResult Value :=
  seqCheck (check_route route)
    (seqCheck (check_date date)
      (if !truthyOptInt sched then
        call_api env "route" "routeinfo" [("route", .str route), ("date", .str date)]
      else
        call_api env "route" "routeinfo"
          [("route", .str route), ("sched", .int (sched.getD 0)), ("date", .str date)]))

/-- BartApi.get_route_current_information. -/
def get_route_current_information (env : Env) (sched : Option Int)
    (date : String) : CallResult Value :=
  seqCheck (check_date date)
    (if !truthyOptInt sched then
      call_api env "route" "routes" [("date", .str date)]
    else
      call_api env "route" "routes"
        [("sched", .int (sched.getD 0)), ("date", .str date)])

/-- BartApi.get_schedule_by_arrival: the seven validators in parameter-list
order, then the arrive command. -/
def get_schedule_by_arrival (env : Env) (orig dest time date : String)
    (trips_before trips_after legend : Int) : CallResult Value :=
  seqCheck (check_station orig)
    (seqCheck (check_station dest)
      (seqCheck (check_time time)
        (seqCheck (check_date date)
          (seqCheck (check_trips trips_before)
            (seqCheck (check_trips trips_after)
              (seqCheck (check_legend (.int legend))
                (call_api env "sched" "arrive"
                  [("orig", .str orig), ("dest", .str dest),
                   ("time", .str time), ("date", .str date),
                   ("b", .int trips_before), ("a", .int trips_after),
                   ("l", .int legend)])))))))

/-- BartApi.get_schedule_by_departure. -/
def get_schedule_by_departure (env : Env) (orig dest time date : String)
    (trips_before trips_after legend : Int) : CallResult Value :=
  seqCheck (check_station orig)
    (seqCheck (check_station dest)
      (seqCheck (check_time time)
        (seqCheck (check_date date)
          (seqCheck (check_trips trips_before)
            (seqCheck (check_trips trips_after)
              (seqCheck (check_legend (.int legend))
                (call_api env "sched" "depart"
                  [("orig", .str orig), ("dest", .str dest),
                   ("time", .str time), ("date", .str date),
                   ("b", .int trips_before), ("a", .int trips_after),
                   ("l", .int legend)])))))))

/-- BartApi.get_schedule_fare. -/
def get_schedule_fare (env : Env) (orig dest date : String) (sched : Option Int) :
    CallResult Value :=
  seqCheck (check_station orig)
    (seqCheck (check_station dest)
      (seqCheck (check_date date)
        (if truthyOptInt sched then
          call_api env "sched" "fare"
            [("orig", .str orig), ("dest", .str dest),
             ("date", .str date), ("sched", .int (sched.getD 0))]
        else
          call_api env "sched" "fare"
            [("orig", .str orig), ("dest", .str dest), ("date", .str date)])))

/-- BartApi.get_schedule_for_holiday. -/
def get_schedule_for_holiday (env : Env) : CallResult Value :=
  call_api env "sched" "holiday" []

/-- BartApi.get_schedule_load_factor: validate ld1, the truthy optional
identifiers and the schedule type; the branch condition then evaluates
all(ld1, ld2, ld3), which in Python 2 is a TypeError (the builtin takes
exactly one iterable argument), so no branch is ever reached and no request
is issued. -/
def get_schedule_load_factor (env : Env) (ld1 : String) (ld2 ld3 : Option String)
    (st : String) : CallResult Value :=
  seqCheck (check_load ld1)
    (seqCheck (if truthyOptStr ld2 then check_load (ld2.getD "") else .ok ())
      (seqCheck (if truthyOptStr ld3 then check_load (ld3.getD "") else .ok ())
        (seqCheck (check_schedule_type st)
          ⟨[], [], .error (.typeError "all() takes exactly one argument (3 given)")⟩)))

/-- BartApi.get_schedule_by_route. -/
def get_schedule_by_route (env : Env) : CallResult Value :=
  call_api env "sched" "routesched" []

/-- BartApi.get_schedule. -/
def get_schedule (env : Env) : CallResult Value :=
  call_api env "sched" "scheds" []

/-- BartApi.get_schedule_special. -/
def get_schedule_special (env : Env) : CallResult Value :=
  call_api env "sched" "special" []

/-- BartApi.get_schedule_station. -/
def get_schedule_station (env : Env) : CallResult Value :=
  call_api env "sched" "stnsched" []

/-- BartApi.get_station_access: validate, call stnaccess, then rebuild the
result dict, merging the message legend in when the caller opted in. -/
def get_station_access (env : Env) (orig : String) (legend : Int) : CallResult Value :=
  seqCheck (check_station orig)
    (seqCheck (check_legend (.int legend))
      (bindR (call_api env "stn" "stnaccess" [("orig", .str orig), ("l", .int legend)])
        (fun out => do
          let s ← indexKey out "stations"
          if legend = 1 then do
            let m ← indexKey out "message"
            let lg ← indexKey m "legend"
            pure (.vdict [("stations", s), ("legend", lg)])
          else
            pure (.vdict [("stations", s)]))))

/-- BartApi.get_station_info. -/
def get_station_info (env : Env) (orig : String) : CallResult Value :=
  seqCheck (check_station orig)
    (bindR (call_api env "stn" "stninfo" [("orig", .str orig)])
      (fun out => indexKey out "stations"))

/-- BartApi.get_stations. -/
def get_stations (env : Env) : CallResult Value :=
  bindR (call_api env "stn" "stns" []) (fun out => indexKey out "stations")

/-!  Shared test fixtures and helper lemmas. -/

/-- A well-formed decoded document body used by concrete evaluations. -/
def demoDoc : List (String × Value) :=
  [("uri", .vstr "u"), ("message", .vnone), ("etd", .vstr "E")]

/-- The client over a transport oracle that always answers 200 with a fixed
well-formed document. -/
def demoEnv : Env :=
  ⟨"KEY", fun _ => ⟨200, .vdict [("root", .vdict demoDoc)]⟩⟩

/-- A client whose oracle always answers 200 with the given document body
under the root wrapper. -/
def mkConstEnv (key : String) (d : List (String × Value)) : Env :=
  ⟨key, fun _ => ⟨200, .vdict [("root", .vdict d)]⟩⟩

theorem seqCheck_ok {α : Type} (r : CallResult α) : seqCheck (.ok ()) r = r := rfl

theorem seqCheck_error {α : Type} (e : PyError) (r : CallResult α) :
    seqCheck (.error e) r = ⟨[], [], .error e⟩ := rfl

theorem lookupKey_removeKey_self {β : Type} (d : List (String × β)) (k : String) :
    lookupKey (removeKey d k) k = none := by
  induction d with
  | nil => rfl
  | cons p rest ih =>
      by_cases h : p.1 = k
      · simpa [removeKey, List.filter_cons, h] using ih
      · simpa [removeKey, List.filter_cons, h, lookupKey] using ih

theorem lookupKey_removeKey_ne {β : Type} (d : List (String × β)) (k k2 : String)
    (h : k2 ≠ k) : lookupKey (removeKey d k) k2 = lookupKey d k2 := by
  induction d with
  | nil => rfl
  | cons p rest ih =>
      rcases p with ⟨pk, pv⟩
      by_cases hp : pk = k
      · have h1 : removeKey ((pk, pv) :: rest) k = removeKey rest k := by
          simp [removeKey, List.filter_cons, hp]
        have hne : ¬ pk = k2 := by
          intro hc
          exact h (by rw [← hc, hp])
        rw [h1, ih]
        simp [lookupKey, hne]
      · have h1 : removeKey ((pk, pv) :: rest) k = (pk, pv) :: removeKey rest k := by
          simp [removeKey, List.filter_cons, hp]
        rw [h1]
        by_cases hk2 : pk = k2
        · simp [lookupKey, hk2]
        · simp [lookupKey, hk2, ih]

/-- Unfolding of call_api for a valid endpoint against a constant 200
oracle. -/
theorem call_api_mkConstEnv (key : String) (d : List (String × Value))
    (ep cmd : String) (kwargs : List (String × Param)) (hep : ep ∈ BART_ENDPOINTS) :
    call_api (mkConstEnv key d) ep cmd kwargs =
      ⟨[mkRequest key ep cmd kwargs],
       (parse_and_unwrap (.vdict [("root", .vdict d)])).1,
       (parse_and_unwrap (.vdict [("root", .vdict d)])).2⟩ := by
  unfold call_api
  rw [if_pos hep, if_neg (by simp [mkConstEnv])]
  rfl

/-- An issued request is recorded whatever the oracle answers. -/
theorem call_api_requests (env : Env) (ep cmd : String)
    (kwargs : List (String × Param)) (hep : ep ∈ BART_ENDPOINTS) :
    (call_api env ep cmd kwargs).requests = [mkRequest env.api_key ep cmd kwargs] := by
  unfold call_api
  rw [if_pos hep]
  dsimp only
  split <;> rfl

/-- Unfolding of parse_and_unwrap on a wrapped body that carries the uri
wrapper key and a message entry that is a dict whenever it is truthy. -/
theorem parse_and_unwrap_ok (d : List (String × Value)) (u m : Value)
    (hu : lookupKey d "uri" = some u)
    (hm : lookupKey d "message" = some m)
    (hmd : truthy m = true → ∃ md, m = .vdict md) :
    (parse_and_unwrap (.vdict [("root", .vdict d)])).2 =
      .ok (.vdict (removeKey d "uri")) := by
  have hm2 : lookupKey (removeKey d "uri") "message" = some m := by
    rw [lookupKey_removeKey_ne d "uri" "message" (by decide)]
    exact hm
  unfold parse_and_unwrap
  dsimp only
  rw [show lookupKey [("root", Value.vdict d)] "root" = some (Value.vdict d) from rfl]
  dsimp only
  rw [hu, hm2]
  dsimp only
  by_cases ht : truthy m = true
  · obtain ⟨md, rfl⟩ := hmd ht
    rw [if_pos ht]
    dsimp only
    cases hlm : lookupKey md "error" with
    | none => rfl
    | some e =>
        dsimp only
        by_cases hte : truthy e = true
        · rw [if_pos hte]
        · rw [if_neg hte]
  · rw [if_neg ht]

/-- Printed advisory of parse_and_unwrap when the message area holds a
truthy error note. -/
theorem parse_and_unwrap_printed (d : List (String × Value)) (u : Value)
    (md : List (String × Value)) (e : Value)
    (hu : lookupKey d "uri" = some u)
    (hm : lookupKey d "message" = some (.vdict md))
    (he : lookupKey md "error" = some e)
    (hte : truthy e = true) :
    (parse_and_unwrap (.vdict [("root", .vdict d)])).1 = [e] := by
  have hm2 : lookupKey (removeKey d "uri") "message" = some (Value.vdict md) := by
    rw [lookupKey_removeKey_ne d "uri" "message" (by decide)]
    exact hm
  have hmd : md ≠ [] := by
    intro hc
    rw [hc] at he
    exact Option.noConfusion he
  have ht : truthy (Value.vdict md) = true := by
    simp [truthy, hmd]
  unfold parse_and_unwrap
  dsimp only
  rw [show lookupKey [("root", Value.vdict d)] "root" = some (Value.vdict d) from rfl]
  dsimp only
  rw [hu, hm2]
  dsimp only
  rw [if_pos ht]
  rw [he]
  dsimp only
  rw [if_pos hte]

/-- C1: the load-factor operation never issues its request: after the
validators pass, the branch condition all(ld1, ld2, ld3) raises a TypeError
in Python 2 (all takes exactly one argument), so with one valid identifier
as well as with three the call raises instead of returning a result. -/
theorem c1_load_factor_always_raises :
    get_schedule_load_factor demoEnv "ASHB0746" none none "w" =
      ⟨[], [], .error (.typeError "all() takes exactly one argument (3 given)")⟩ ∧
    get_schedule_load_factor demoEnv "ASHB0446" (some "MCAR0159") (some "COLM0123") "w" =
      ⟨[], [], .error (.typeError "all() takes exactly one argument (3 given)")⟩ := by
  exact ⟨rfl, rfl⟩

/-- C2: check_direction tests Python substring membership in "ns", so it
accepts the claimed n and s but also silently accepts the empty string and
the two-character string ns, contradicting the claim that every string other
than n and s raises; genuinely foreign strings still raise. -/
theorem c2_direction_substring_eval :
    check_direction "n" = .ok () ∧ check_direction "s" = .ok () ∧
    check_direction "" = .ok () ∧ check_direction "ns" = .ok () ∧
    check_direction "e" = .error (.exc "Direction \x27e\x27 not recognized") ∧
    check_direction "N" = .error (.exc "Direction \x27N\x27 not recognized") := by
  exact ⟨rfl, rfl, rfl, rfl, rfl, rfl⟩

/-- C9: check_legend accepts exactly the Python ints 0 and 1 and raises for
every other modelled value, in particular for -1, 2 and the string "1". -/
theorem c9_legend_exact :
    (∀ v : PyVal, check_legend v = .ok () ↔ (v = .int 0 ∨ v = .int 1)) ∧
    check_legend (.int (-1)) = .error (.exc "Legend value \x27-1\x27 invalid") ∧
    check_legend (.int 2) = .error (.exc "Legend value \x272\x27 invalid") ∧
    check_legend (.str "1") = .error (.exc "Legend value \x271\x27 invalid") := by
  refine ⟨?_, rfl, rfl, rfl⟩
  intro v
  unfold check_legend
  split <;> simp_all

/-- C9 witness: the validator accepts the legend flag 0. -/
theorem c9_witness : check_legend (.int 0) = .ok () :=
  (c9_legend_exact.1 (.int 0)).mpr (Or.inl rfl)

/-- C10: for a valid specific station with neither platform nor direction
supplied, get_estimated_departure falls through every branch: it issues no
request, prints nothing and returns None. -/
theorem c10_specific_station_fallthrough (env : Env) (orig : String)
    (h1 : check_station orig = .ok ()) (h2 : orig ≠ "all") :
    get_estimated_departure env orig none none = ⟨[], [], .ok none⟩ := by
  unfold get_estimated_departure
  rw [h1, seqCheck_ok, if_neg h2]
  rfl

/-- C10 witness: the fall-through at the concrete valid station ashb. -/
theorem c10_witness :
    get_estimated_departure demoEnv "ashb" none none = ⟨[], [], .ok none⟩ :=
  c10_specific_station_fallthrough demoEnv "ashb" rfl (by decide)

/-- C3: for a valid specific station with both a platform and a direction
supplied, the platform branch wins: the operation equals the etd call whose
request carries orig and plat, the issued request has no dir parameter at
all, and this holds for any supplied direction string, valid or not. -/
theorem c3_platform_precedence (env : Env) (orig : String) (p : Int) (dv : String)
    (h1 : check_station orig = .ok ()) (h2 : orig ≠ "all")
    (h3 : 1 ≤ p) (h4 : p ≤ 4) :
    get_estimated_departure env orig (some p) (some dv) =
      mapR (call_api env "etd" "etd" [("orig", .str orig), ("plat", .int p)]) some ∧
    (call_api env "etd" "etd" [("orig", .str orig), ("plat", .int p)]).requests =
      [mkRequest env.api_key "etd" "etd" [("orig", .str orig), ("plat", .int p)]] ∧
    lookupKey (mkRequest env.api_key "etd" "etd"
      [("orig", .str orig), ("plat", .int p)]).params "plat" = some (.int p) ∧
    lookupKey (mkRequest env.api_key "etd" "etd"
      [("orig", .str orig), ("plat", .int p)]).params "dir" = none := by
  have hp0 : p ≠ 0 := by omega
  have htr : truthyOptInt (some p) = true := by
    simp [truthyOptInt, hp0]
  refine ⟨?_, ?_, ?_, ?_⟩
  · unfold get_estimated_departure
    rw [h1, seqCheck_ok, if_neg h2, if_pos htr]
    have hcp : check_platform ((some p).getD 0) = .ok () := by
      unfold check_platform
      rw [if_pos ⟨h3, h4⟩]
    rw [hcp, seqCheck_ok]
    rfl
  · exact call_api_requests env "etd" "etd" _ (by decide)
  · rfl
  · rfl

/-- C3 witness: platform 2 beats the invalid direction x at station ashb. -/
theorem c3_witness :
    get_estimated_departure demoEnv "ashb" (some 2) (some "x") =
      mapR (call_api demoEnv "etd" "etd" [("orig", .str "ashb"), ("plat", .int 2)]) some ∧
    (call_api demoEnv "etd" "etd" [("orig", .str "ashb"), ("plat", .int 2)]).requests =
      [mkRequest demoEnv.api_key "etd" "etd" [("orig", .str "ashb"), ("plat", .int 2)]] ∧
    lookupKey (mkRequest demoEnv.api_key "etd" "etd"
      [("orig", .str "ashb"), ("plat", .int 2)]).params "plat" = some (.int 2) ∧
    lookupKey (mkRequest demoEnv.api_key "etd" "etd"
      [("orig", .str "ashb"), ("plat", .int 2)]).params "dir" = none :=
  c3_platform_precedence demoEnv "ashb" 2 "x" rfl (by decide) (by decide) (by decide)

/-- C4: when the decoded body carries the uri wrapper and a message dict
with a truthy error note, call_api does not raise: it prints the note as its
diagnostic and still returns the unwrapped data (the note is the only thing
printed, and the result is the body with only the wrapper key removed). -/
theorem c4_advisory_returned (key ep cmd : String) (kwargs : List (String × Param))
    (d : List (String × Value)) (u : Value) (md : List (String × Value)) (e : Value)
    (hep : ep ∈ BART_ENDPOINTS)
    (hu : lookupKey d "uri" = some u)
    (hm : lookupKey d "message" = some (.vdict md))
    (he : lookupKey md "error" = some e)
    (hte : truthy e = true) :
    (call_api (mkConstEnv key d) ep cmd kwargs).result = .ok (.vdict (removeKey d "uri")) ∧
    (call_api (mkConstEnv key d) ep cmd kwargs).printed = [e] := by
  rw [call_api_mkConstEnv key d ep cmd kwargs hep]
  constructor
  · exact parse_and_unwrap_ok d u (.vdict md) hu hm (fun _ => ⟨md, rfl⟩)
  · exact parse_and_unwrap_printed d u md e hu hm he hte

/-- Decoded body carrying both an advisory note and station data. -/
def advisoryDoc : List (String × Value) :=
  [("uri", .vstr "u"),
   ("message", .vdict [("error", .vstr "advisory")]),
   ("stations", .vstr "DATA")]

/-- C4 witness: the advisory body is returned with the note printed. -/
theorem c4_witness :
    (call_api (mkConstEnv "KEY" advisoryDoc) "stn" "stns" []).result =
      .ok (.vdict (removeKey advisoryDoc "uri")) ∧
    (call_api (mkConstEnv "KEY" advisoryDoc) "stn" "stns" []).printed = [.vstr "advisory"] :=
  c4_advisory_returned "KEY" "stn" "stns" [] advisoryDoc (.vstr "u")
    [("error", .vstr "advisory")] (.vstr "advisory") (by decide) rfl rfl rfl rfl

/-- Decoded body with the wrapper key and a data payload but no message
entry. -/
def noMessageDoc : List (String × Value) :=
  [("uri", .vstr "u"), ("stations", .vstr "DATA")]

/-- C6 counterexample: a decoded body that carries the uri wrapper key and a
data payload but no message entry makes call_api raise a KeyError instead of
returning the unwrapped mapping, so the claim does not hold of every mapping
with the wrapper key and a payload. -/
theorem c6_counterexample :
    lookupKey noMessageDoc "uri" = some (.vstr "u") ∧
    lookupKey noMessageDoc "stations" = some (.vstr "DATA") ∧
    (call_api (mkConstEnv "KEY" noMessageDoc) "stn" "stns" []).result =
      .error (.keyError "message") := by
  refine ⟨rfl, rfl, ?_⟩
  rw [call_api_mkConstEnv "KEY" noMessageDoc "stn" "stns" [] (by decide)]
  rfl

/-- C6 (amended): for every decoded body that carries the uri wrapper key, a
data payload and also a message entry (a dict whenever truthy, as in every
well-formed upstream response), call_api returns the mapping with the
wrapper key gone and every other binding preserved unchanged. -/
theorem c6_unwrap_preserves (key ep cmd : String) (kwargs : List (String × Param))
    (d : List (String × Value)) (u m : Value)
    (hep : ep ∈ BART_ENDPOINTS)
    (hu : lookupKey d "uri" = some u)
    (hm : lookupKey d "message" = some m)
    (hmd : truthy m = true → ∃ md, m = .vdict md) :
    (call_api (mkConstEnv key d) ep cmd kwargs).result = .ok (.vdict (removeKey d "uri")) ∧
    lookupKey (removeKey d "uri") "uri" = none ∧
    ∀ k2, k2 ≠ "uri" → lookupKey (removeKey d "uri") k2 = lookupKey d k2 := by
  refine ⟨?_, lookupKey_removeKey_self d "uri", fun k2 h => lookupKey_removeKey_ne d "uri" k2 h⟩
  rw [call_api_mkConstEnv key d ep cmd kwargs hep]
  exact parse_and_unwrap_ok d u m hu hm hmd

/-- C6 witness: the demo body loses its uri key and keeps its etd payload. -/
theorem c6_witness :
    (call_api (mkConstEnv "KEY" demoDoc) "stn" "stns" []).result =
      .ok (.vdict (removeKey demoDoc "uri")) ∧
    lookupKey (removeKey demoDoc "uri") "uri" = none ∧
    lookupKey (removeKey demoDoc "uri") "etd" = lookupKey demoDoc "etd" :=
  ⟨(c6_unwrap_preserves "KEY" "stn" "stns" [] demoDoc (.vstr "u") .vnone (by decide) rfl rfl
      (fun h => by simp [truthy] at h)).1,
   (c6_unwrap_preserves "KEY" "stn" "stns" [] demoDoc (.vstr "u") .vnone (by decide) rfl rfl
      (fun h => by simp [truthy] at h)).2.1,
   (c6_unwrap_preserves "KEY" "stn" "stns" [] demoDoc (.vstr "u") .vnone (by decide) rfl rfl
      (fun h => by simp [truthy] at h)).2.2 "etd" (by decide)⟩

/-- First raised exception among a sequence of validator outcomes. -/
def firstErr : List (Except PyError Unit) → Option PyError
  | [] => none
  | .ok _ :: rest => firstErr rest
  | .error e :: _ => some e

/-- A sequence of validators run in order in front of a computation. -/
def runChecks {α : Type} : List (Except PyError Unit) → CallResult α → CallResult α
  | [], k => k
  | c :: rest, k => seqCheck c (runChecks rest k)

theorem runChecks_error {α : Type} (cs : List (Except PyError Unit)) (k : CallResult α)
    (e : PyError) (h : firstErr cs = some e) : runChecks cs k = ⟨[], [], .error e⟩ := by
  induction cs with
  | nil => exact absurd h (by simp [firstErr])
  | cons c rest ih =>
      cases c with
      | ok u =>
          cases u
          have h2 : firstErr rest = some e := h
          calc runChecks (Except.ok () :: rest) k = runChecks rest k := rfl
            _ = ⟨[], [], .error e⟩ := ih h2
      | error e2 =>
          have h2 : e2 = e := by
            simpa [firstErr] using h
          subst h2
          rfl

/-- C7 counterexample: a supplied direction that fails its validator does
not stop the departure operation when a platform is also supplied: the
request is still issued (and the call still returns data), so it is not true
that every caller-supplied parameter failing its validator prevents the
request. -/
theorem c7_counterexample :
    check_direction "x" = .error (.exc "Direction \x27x\x27 not recognized") ∧
    (get_estimated_departure demoEnv "ashb" (some 2) (some "x")).requests =
      [mkRequest "KEY" "etd" "etd" [("orig", .str "ashb"), ("plat", .int 2)]] ∧
    (get_estimated_departure demoEnv "ashb" (some 2) (some "x")).result =
      .ok (some (.vdict [("message", .vnone), ("etd", .vstr "E")])) :=
  ⟨rfl, rfl, rfl⟩

/-- C7 (amended): in every public operation, each parameter check the
operation performs runs before the request, in parameter-list order: when
the first failing check among those performed raises e, the operation
returns exactly that exception, issues no HTTP request and prints nothing.
Parameters the taken branch ignores (direction when a platform is supplied,
platform and direction for the sentinel station) are not validated. -/
theorem c7_validation_before_io :
    (∀ (env : Env) (ep : String), ep ∉ BART_ENDPOINTS →
      get_api_commands env ep =
        ⟨[], [], .error (.exc ("Endpoint \x27" ++ ep ++ "\x27 does not exist"))⟩) ∧
    (∀ (env : Env) (ep : String), ep ∉ BART_ENDPOINTS →
      get_api_version env ep =
        ⟨[], [], .error (.exc ("Endpoint \x27" ++ ep ++ "\x27 does not exist"))⟩) ∧
    (∀ (env : Env) (orig : String) (e : PyError), check_station orig = .error e →
      get_current_advisory env orig = ⟨[], [], .error e⟩) ∧
    (∀ (env : Env) (orig : String) (plat : Option Int) (dir : Option String) (e : PyError),
      check_station orig = .error e →
      get_estimated_departure env orig plat dir = ⟨[], [], .error e⟩) ∧
    (∀ (env : Env) (orig : String) (plat : Option Int) (dir : Option String) (e : PyError),
      check_station orig = .ok () → orig ≠ "all" → truthyOptInt plat = true →
      check_platform (plat.getD 0) = .error e →
      get_estimated_departure env orig plat dir = ⟨[], [], .error e⟩) ∧
    (∀ (env : Env) (orig : String) (plat : Option Int) (dir : Option String) (e : PyError),
      check_station orig = .ok () → orig ≠ "all" → truthyOptInt plat = false →
      truthyOptStr dir = true → check_direction (dir.getD "") = .error e →
      get_estimated_departure env orig plat dir = ⟨[], [], .error e⟩) ∧
    (∀ (env : Env) (route : String) (sched : Option Int) (date : String) (e : PyError),
      firstErr [check_route route, check_date date] = some e →
      get_route_information env route sched date = ⟨[], [], .error e⟩) ∧
    (∀ (env : Env) (sched : Option Int) (date : String) (e : PyError),
      check_date date = .error e →
      get_route_current_information env sched date = ⟨[], [], .error e⟩) ∧
    (∀ (env : Env) (orig dest time date : String) (b a l : Int) (e : PyError),
      firstErr [check_station orig, check_station dest, check_time time, check_date date,
        check_trips b, check_trips a, check_legend (.int l)] = some e →
      get_schedule_by_arrival env orig dest time date b a l = ⟨[], [], .error e⟩) ∧
    (∀ (env : Env) (orig dest time date : String) (b a l : Int) (e : PyError),
      firstErr [check_station orig, check_station dest, check_time time, check_date date,
        check_trips b, check_trips a, check_legend (.int l)] = some e →
      get_schedule_by_departure env orig dest time date b a l = ⟨[], [], .error e⟩) ∧
    (∀ (env : Env) (orig dest date : String) (sched : Option Int) (e : PyError),
      firstErr [check_station orig, check_station dest, check_date date] = some e →
      get_schedule_fare env orig dest date sched = ⟨[], [], .error e⟩) ∧
    (∀ (env : Env) (ld1 : String) (ld2 ld3 : Option String) (st : String) (e : PyError),
      firstErr ([check_load ld1] ++
        (if truthyOptStr ld2 then [check_load (ld2.getD "")] else []) ++
        (if truthyOptStr ld3 then [check_load (ld3.getD "")] else []) ++
        [check_schedule_type st]) = some e →
      get_schedule_load_factor env ld1 ld2 ld3 st = ⟨[], [], .error e⟩) ∧
    (∀ (env : Env) (orig : String) (legend : Int) (e : PyError),
      firstErr [check_station orig, check_legend (.int legend)] = some e →
      get_station_access env orig legend = ⟨[], [], .error e⟩) ∧
    (∀ (env : Env) (orig : String) (e : PyError), check_station orig = .error e →
      get_station_info env orig = ⟨[], [], .error e⟩) := by
  refine ⟨?_, ?_, ?_, ?_, ?_, ?_, ?_, ?_, ?_, ?_, ?_, ?_, ?_, ?_⟩
  · intro env ep h
    unfold get_api_commands
    rw [if_neg h]
  · intro env ep h
    unfold get_api_version call_api
    rw [if_neg h]
  · intro env orig e h
    unfold get_current_advisory
    rw [h]
    rfl
  · intro env orig plat dir e h
    unfold get_estimated_departure
    rw [h]
    rfl
  · intro env orig plat dir e h1 h2 h3 h4
    unfold get_estimated_departure
    rw [h1, seqCheck_ok, if_neg h2, if_pos h3, h4]
    rfl
  · intro env orig plat dir e h1 h2 h3 h4 h5
    unfold get_estimated_departure
    rw [h1, seqCheck_ok, if_neg h2, if_neg (by rw [h3]; exact Bool.false_ne_true),
      if_pos h4, h5]
    rfl
  · intro env route sched date e h
    exact runChecks_error [check_route route, check_date date] _ e h
  · intro env sched date e h
    unfold get_route_current_information
    rw [h]
    rfl
  · intro env orig dest time date b a l e h
    exact runChecks_error [check_station orig, check_station dest, check_time time,
      check_date date, check_trips b, check_trips a, check_legend (.int l)] _ e h
  · intro env orig dest time date b a l e h
    exact runChecks_error [check_station orig, check_station dest, check_time time,
      check_date date, check_trips b, check_trips a, check_legend (.int l)] _ e h
  · intro env orig dest date sched e h
    exact runChecks_error [check_station orig, check_station dest, check_date date] _ e h
  · intro env ld1 ld2 ld3 st e h
    by_cases t2 : truthyOptStr ld2 = true
    · by_cases t3 : truthyOptStr ld3 = true
      · rw [if_pos t2, if_pos t3] at h
        unfold get_schedule_load_factor
        rw [if_pos t2, if_pos t3]
        exact runChecks_error [check_load ld1, check_load (ld2.getD ""),
          check_load (ld3.getD ""), check_schedule_type st] _ e h
      · rw [if_pos t2, if_neg t3] at h
        unfold get_schedule_load_factor
        rw [if_pos t2, if_neg t3]
        exact runChecks_error ([check_load ld1] ++ [check_load (ld2.getD "")] ++ [] ++
          [check_schedule_type st]) _ e h
    · by_cases t3 : truthyOptStr ld3 = true
      · rw [if_neg t2, if_pos t3] at h
        unfold get_schedule_load_factor
        rw [if_neg t2, if_pos t3]
        exact runChecks_error ([check_load ld1] ++ [] ++ [check_load (ld3.getD "")] ++
          [check_schedule_type st]) _ e h
      · rw [if_neg t2, if_neg t3] at h
        unfold get_schedule_load_factor
        rw [if_neg t2, if_neg t3]
        exact runChecks_error ([check_load ld1] ++ [] ++ [] ++
          [check_schedule_type st]) _ e h
  · intro env orig legend e h
    exact runChecks_error [check_station orig, check_legend (.int legend)] _ e h
  · intro env orig e h
    unfold get_station_info
    rw [h]
    rfl

/-- C7 witness: an unknown origin station stops get_schedule_by_arrival
with its own exception and no request. -/
theorem c7_witness :
    get_schedule_by_arrival demoEnv "xxxx" "colm" "now" "today" 2 2 0 =
      ⟨[], [], .error (.exc "Station \x27xxxx\x27 not recognized")⟩ :=
  c7_validation_before_io.2.2.2.2.2.2.2.2.1 demoEnv "xxxx" "colm" "now" "today" 2 2 0
    (.exc "Station \x27xxxx\x27 not recognized") rfl

theorem strData_append (s t : String) : (s ++ t).data = s.data ++ t.data := by
  cases s
  cases t
  rfl

/-- C8: check_load splits a train identifier into its first 4 characters
(station), next 2 characters (route) and remainder (train id), accepting
exactly when the station part is a table key and the two numeric parts parse
as ints; concretely ASHB0746 passes while XXXX0746 raises naming the unknown
station part. -/
theorem c8_load_decomposition :
    (∀ s r i : String, s.length = 4 → r.length = 2 →
      (check_load (s ++ r ++ i) = .ok () ↔
        (s ∈ stations_keys ∧ pyIntOk r = true ∧ pyIntOk i = true))) ∧
    check_load "ASHB0746" = .ok () ∧
    check_load "XXXX0746" = .error (.exc "Station \x27XXXX\x27 not recognized") := by
  refine ⟨?_, rfl, rfl⟩
  intro s r i hs hr
  rcases s with ⟨sl⟩
  rcases r with ⟨rl⟩
  rcases i with ⟨il⟩
  have hsl : sl.length = 4 := hs
  have hrl : rl.length = 2 := hr
  have hst : strTake ((⟨sl⟩ : String) ++ (⟨rl⟩ : String) ++ (⟨il⟩ : String)) 4 =
      (⟨sl⟩ : String) := by
    show (⟨((sl ++ rl) ++ il).take 4⟩ : String) = (⟨sl⟩ : String)
    rw [List.append_assoc, ← hsl, List.take_left]
  have hsr : strTake (strDrop ((⟨sl⟩ : String) ++ (⟨rl⟩ : String) ++ (⟨il⟩ : String)) 4) 2 =
      (⟨rl⟩ : String) := by
    show (⟨(((sl ++ rl) ++ il).drop 4).take 2⟩ : String) = (⟨rl⟩ : String)
    rw [List.append_assoc, ← hsl, List.drop_left, ← hrl, List.take_left]
  have hsd : strDrop ((⟨sl⟩ : String) ++ (⟨rl⟩ : String) ++ (⟨il⟩ : String)) 6 =
      (⟨il⟩ : String) := by
    show (⟨((sl ++ rl) ++ il).drop 6⟩ : String) = (⟨il⟩ : String)
    have h6 : (sl ++ rl).length = 6 := by
      rw [List.length_append, hsl, hrl]
    rw [← h6, List.drop_left]
  unfold check_load
  dsimp only
  rw [hst, hsr, hsd]
  constructor
  · intro h
    by_cases h1 : (⟨sl⟩ : String) ∈ stations_keys
    · rw [if_pos h1] at h
      by_cases h2 : pyIntOk ⟨rl⟩ = true
      · rw [if_pos h2] at h
        by_cases h3 : pyIntOk ⟨il⟩ = true
        · exact ⟨h1, h2, h3⟩
        · rw [if_neg h3] at h
          exact Except.noConfusion h
      · rw [if_neg h2] at h
        exact Except.noConfusion h
    · rw [if_neg h1] at h
      exact Except.noConfusion h
  · rintro ⟨h1, h2, h3⟩
    rw [if_pos h1, if_pos h2, if_pos h3]

/-- C8 witness: the parts of ASHB0746 have the required widths and the
recombined identifier validates. -/
theorem c8_witness :
    String.length "ASHB" = 4 ∧ String.length "07" = 2 ∧
    check_load ("ASHB" ++ "07" ++ "46") = .ok () :=
  ⟨rfl, rfl, (c8_load_decomposition.1 "ASHB" "07" "46" rfl rfl).mpr
    ⟨by decide, by decide, by decide⟩⟩

theorem isDig_iff (c : Char) : isDig c = true ↔ (48 ≤ c.toNat ∧ c.toNat ≤ 57) := by
  simp [isDig]

theorem chunkVal_one (c : Char) : chunkVal [c] = digVal c := by
  simp [chunkVal]

theorem chunkVal_two (c1 c2 : Char) : chunkVal [c1, c2] = 10 * digVal c1 + digVal c2 := by
  simp [chunkVal]
  omega

theorem isHour2_iff (c1 c2 : Char) :
    isHour2 c1 c2 = true ↔ (isDig c1 = true ∧ isDig c2 = true ∧ chunkVal [c1, c2] ≤ 23) := by
  rw [chunkVal_two]
  simp only [isHour2, isDig, Bool.or_eq_true, Bool.and_eq_true, decide_eq_true_eq]
  unfold digVal
  omega

theorem isMin2_iff (c1 c2 : Char) :
    isMin2 c1 c2 = true ↔ (isDig c1 = true ∧ isDig c2 = true ∧ chunkVal [c1, c2] ≤ 59) := by
  rw [chunkVal_two]
  simp only [isMin2, isDig, Bool.and_eq_true, decide_eq_true_eq]
  unfold digVal
  omega

/-- Digit strings of width one or two whose value is a valid hour of the
format: what the spec calls the hour of an hour:minute value. -/
def validHourChunk (l : List Char) : Prop :=
  l ≠ [] ∧ l.length ≤ 2 ∧ (∀ c ∈ l, isDig c = true) ∧ chunkVal l ≤ 23

/-- Digit strings of width one or two whose value is a valid minute. -/
def validMinChunk (l : List Char) : Prop :=
  l ≠ [] ∧ l.length ≤ 2 ∧ (∀ c ∈ l, isDig c = true) ∧ chunkVal l ≤ 59

/-- Statement of the spec sentence for the time validator: the string
decomposes as hour digits, a colon, minute digits, a plus sign and a twelve
hour meridian marker am/pm in either case. -/
def specTimeFormat (s : String) : Prop :=
  ∃ hl ml a p, s.data = hl ++ ':' :: (ml ++ '+' :: [a, p]) ∧
    validHourChunk hl ∧ validMinChunk ml ∧ isAmPm a p = true

theorem validHour_single (c : Char) (h : isDig c = true) : validHourChunk [c] := by
  refine ⟨by simp, by simp, ?_, ?_⟩
  · intro x hx
    simp at hx
    subst hx
    exact h
  · rw [chunkVal_one]
    have h2 := (isDig_iff c).mp h
    unfold digVal
    omega

theorem validMin_single (c : Char) (h : isDig c = true) : validMinChunk [c] := by
  refine ⟨by simp, by simp, ?_, ?_⟩
  · intro x hx
    simp at hx
    subst hx
    exact h
  · rw [chunkVal_one]
    have h2 := (isDig_iff c).mp h
    unfold digVal
    omega

theorem validHour_pair (c1 c2 : Char) (h : isHour2 c1 c2 = true) :
    validHourChunk [c1, c2] := by
  obtain ⟨h1, h2, h3⟩ := (isHour2_iff c1 c2).mp h
  refine ⟨by simp, by simp, ?_, h3⟩
  intro x hx
  simp at hx
  rcases hx with rfl | rfl
  · exact h1
  · exact h2

theorem validMin_pair (c1 c2 : Char) (h : isMin2 c1 c2 = true) :
    validMinChunk [c1, c2] := by
  obtain ⟨h1, h2, h3⟩ := (isMin2_iff c1 c2).mp h
  refine ⟨by simp, by simp, ?_, h3⟩
  intro x hx
  simp at hx
  rcases hx with rfl | rfl
  · exact h1
  · exact h2

/-- The compiled strptime pattern matches exactly the structural
decompositions of the spec. -/
theorem hmpMatch_iff (l : List Char) :
    hmpMatch l = true ↔
      ∃ hl ml a p, l = hl ++ ':' :: (ml ++ '+' :: [a, p]) ∧
        validHourChunk hl ∧ validMinChunk ml ∧ isAmPm a p = true := by
  constructor
  · intro h
    rcases l with _ | ⟨x1, _ | ⟨x2, _ | ⟨x3, _ | ⟨x4, _ | ⟨x5, _ | ⟨x6, _ | ⟨x7,
      _ | ⟨x8, _ | ⟨x9, rest⟩⟩⟩⟩⟩⟩⟩⟩⟩
    · simp [hmpMatch] at h
    · simp [hmpMatch] at h
    · simp [hmpMatch] at h
    · simp [hmpMatch] at h
    · simp [hmpMatch] at h
    · simp [hmpMatch] at h
    · simp only [hmpMatch, Bool.and_eq_true, beq_iff_eq] at h
      obtain ⟨⟨⟨⟨hc1, hc2⟩, hd1⟩, hd2⟩, hap⟩ := h
      subst hc1
      subst hc2
      exact ⟨[x1], [x3], x5, x6, rfl, validHour_single x1 hd1, validMin_single x3 hd2, hap⟩
    · simp only [hmpMatch, Bool.or_eq_true, Bool.and_eq_true, beq_iff_eq] at h
      rcases h with ⟨⟨⟨⟨hc1, hc2⟩, hh⟩, hd⟩, hap⟩ | ⟨⟨⟨⟨hc1, hc2⟩, hd⟩, hm⟩, hap⟩
      · subst hc1
        subst hc2
        exact ⟨[x1, x2], [x4], x6, x7, rfl, validHour_pair x1 x2 hh,
          validMin_single x4 hd, hap⟩
      · subst hc1
        subst hc2
        exact ⟨[x1], [x3, x4], x6, x7, rfl, validHour_single x1 hd,
          validMin_pair x3 x4 hm, hap⟩
    · simp only [hmpMatch, Bool.and_eq_true, beq_iff_eq] at h
      obtain ⟨⟨⟨⟨hc1, hc2⟩, hh⟩, hm⟩, hap⟩ := h
      subst hc1
      subst hc2
      exact ⟨[x1, x2], [x4, x5], x7, x8, rfl, validHour_pair x1 x2 hh,
        validMin_pair x4 x5 hm, hap⟩
    · simp [hmpMatch] at h
  · rintro ⟨hl, ml, a, p, rfl, hH, hM, hap⟩
    rcases hl with _ | ⟨u, _ | ⟨v, _ | ⟨w, t⟩⟩⟩
    · exact absurd rfl hH.1
    · rcases ml with _ | ⟨m1, _ | ⟨m2, _ | ⟨m3, t2⟩⟩⟩
      · exact absurd rfl hM.1
      · have hdu : isDig u = true := hH.2.2.1 u (by simp)
        have hdm : isDig m1 = true := hM.2.2.1 m1 (by simp)
        simp [hmpMatch, hdu, hdm, hap]
      · have hdu : isDig u = true := hH.2.2.1 u (by simp)
        have hm2 : isMin2 m1 m2 = true := (isMin2_iff m1 m2).mpr
          ⟨hM.2.2.1 m1 (by simp), hM.2.2.1 m2 (by simp), hM.2.2.2⟩
        simp [hmpMatch, hdu, hm2, hap]
      · have h3 := hM.2.1
        simp only [List.length_cons] at h3
        omega
    · rcases ml with _ | ⟨m1, _ | ⟨m2, _ | ⟨m3, t2⟩⟩⟩
      · exact absurd rfl hM.1
      · have hh2 : isHour2 u v = true := (isHour2_iff u v).mpr
          ⟨hH.2.2.1 u (by simp), hH.2.2.1 v (by simp), hH.2.2.2⟩
        have hdm : isDig m1 = true := hM.2.2.1 m1 (by simp)
        simp [hmpMatch, hh2, hdm, hap]
      · have hh2 : isHour2 u v = true := (isHour2_iff u v).mpr
          ⟨hH.2.2.1 u (by simp), hH.2.2.1 v (by simp), hH.2.2.2⟩
        have hm2 : isMin2 m1 m2 = true := (isMin2_iff m1 m2).mpr
          ⟨hM.2.2.1 m1 (by simp), hM.2.2.1 m2 (by simp), hM.2.2.2⟩
        simp [hmpMatch, hh2, hm2, hap]
      · have h3 := hM.2.1
        simp only [List.length_cons] at h3
        omega
    · have h3 := hH.2.1
      simp only [List.length_cons] at h3
      omega

/-- C5: check_time accepts exactly the literals today and now together with
the strings that decompose as hour digits (value up to 23), a colon, minute
digits (value up to 59), a plus sign and the meridian marker am or pm in
either case; every other string raises. -/
theorem c5_time_characterization (t : String) :
    check_time t = .ok () ↔ (t = "today" ∨ t = "now" ∨ specTimeFormat t) := by
  unfold check_time
  by_cases hlit : t ∈ ["today", "now"]
  · rw [if_pos hlit]
    simp only [List.mem_cons, List.not_mem_nil, or_false, List.mem_singleton] at hlit
    constructor
    · intro _
      rcases hlit with h | h
      · exact Or.inl h
      · exact Or.inr (Or.inl h)
    · intro _
      rfl
  · rw [if_neg hlit]
    have hne : ¬(t = "today" ∨ t = "now") := by
      intro hc
      apply hlit
      rcases hc with h | h <;> simp [h]
    by_cases hm : strptime_HMp t = true
    · rw [if_pos hm]
      constructor
      · intro _
        exact Or.inr (Or.inr ((hmpMatch_iff t.data).mp hm))
      · intro _
        rfl
    · rw [if_neg hm]
      constructor
      · intro hc
        exact Except.noConfusion hc
      · intro hc
        rcases hc with h | h | h
        · exact absurd (Or.inl h) hne
        · exact absurd (Or.inr h) hne
        · exact absurd ((hmpMatch_iff t.data).mpr h) hm

/-- C5 witness: the format accepts a concrete clock time and the literal. -/
theorem c5_witness : check_time "2:15+pm" = .ok () ∧ check_time "today" = .ok () :=
  ⟨(c5_time_characterization "2:15+pm").mpr (Or.inr (Or.inr
      ⟨['2'], ['1', '5'], 'p', 'm', by decide, validHour_single '2' (by decide),
       validMin_pair '1' '5' (by decide), by decide⟩)),
   (c5_time_characterization "today").mpr (Or.inl rfl)⟩
